import Mathlib

/-
Verification of the offer-letter generation pipeline
(backend/offer_letter_agent.py, backend/utils/generator.py,
backend/utils/embedder.py, backend/utils/chunker.py).

Python strings are modelled as Lean `String` (code points, as in Python);
machine-level details (floating point salary values) are modelled as `Int`,
since the employee CSV carries integer rupee amounts.  External effects
(the OpenRouter LLM backend, the Pinecone index, the vector-store retriever,
the wall clock) are modelled as explicit oracle parameters threaded through
the translated functions; Python exceptions are modelled with `Except`.
-/

/-! ### Wall-clock timestamps and strftime formats

`datetime.now().strftime(...)` appears with three format strings in the
source: `"%B %d, %Y"` (offer_letter_agent.py line 72), `"%B %d, %Y at %I:%M %p"`
(generator.py line 250) and `"%Y-%m-%d"` (generator.py line 161).
strftime renders `%d`, `%I`, `%M` as two zero-padded digits and `%Y` as the
(four-digit, for calendar years) year, so the formatters below emit
fixed-width digit fields built from `Nat.digitChar`. -/

structure PyDateTime where
  year : Nat
  month : Nat
  day : Nat
  hour12 : Nat
  minute : Nat
  isPM : Bool
deriving DecidableEq

/-- Two-digit zero-padded decimal field (strftime `%d`, `%I`, `%M`). -/
def pad2 (n : Nat) : String :=
  String.mk [Nat.digitChar (n / 10 % 10), Nat.digitChar (n % 10)]

/-- Four-digit zero-padded decimal field (strftime `%Y` for calendar years). -/
def pad4 (n : Nat) : String :=
  String.mk [Nat.digitChar (n / 1000 % 10), Nat.digitChar (n / 100 % 10),
             Nat.digitChar (n / 10 % 10), Nat.digitChar (n % 10)]

/-- Month names rendered by strftime `%B` (months are numbered 1..12). -/
def monthNames : List String :=
  ["January", "February", "March", "April", "May", "June", "July",
   "August", "September", "October", "November", "December"]

/-- Name of month `m` (1..12); out-of-range months render as the empty string. -/
def monthName (m : Nat) : String :=
  monthNames.getD (m - 1) ""

/-- strftime `"%B %d, %Y"` — the timestamp built by `generate_offer_for`. -/
def fmtDateShort (t : PyDateTime) : String :=
  monthName t.month ++ " " ++ pad2 t.day ++ ", " ++ pad4 t.year

/-- strftime `"%B %d, %Y at %I:%M %p"` — the timestamp written by
`RobustFallbackAgent.invoke`. -/
def fmtDateLong (t : PyDateTime) : String :=
  fmtDateShort t ++ " at " ++ pad2 t.hour12 ++ ":" ++ pad2 t.minute ++ " " ++
    (if t.isPM then "PM" else "AM")

/-- strftime `"%Y-%m-%d"` — `current_date` inside the template generator. -/
def fmtDateYMD (t : PyDateTime) : String :=
  pad4 t.year ++ "-" ++ pad2 t.month ++ "-" ++ pad2 t.day

/-! ### Python string primitives

The Python string operations used by the source — `lower`, `strip`,
`split('\n')`, slicing `[:n]`, and the `in` substring test — are modelled
structurally over the character list of a string (Python semantics: ASCII
case mapping for the names, default whitespace set for `strip`). -/

/-- Python `s.lower()` (the source only lower-cases ASCII names/keywords). -/
def pyLower (s : String) : String :=
  (s.data.map Char.toLower).asString

/-- Python `s.strip()`: drop leading and trailing whitespace. -/
def pyStrip (s : String) : String :=
  (((s.data.dropWhile Char.isWhitespace).reverse.dropWhile
      Char.isWhitespace).reverse).asString

/-- Splitting a character list on a separator character, keeping empty
pieces, as Python `str.split(sep)` does. -/
def pySplitOnChar (c : Char) (l : List Char) : List (List Char) :=
  match l with
  | [] => [[]]
  | a :: rest =>
      let r := pySplitOnChar c rest
      if a = c then [] :: r
      else
        match r with
        | [] => [[a]]
        | g :: gs => (a :: g) :: gs

/-- Python `s.split('\n')`. -/
def pySplitLines (s : String) : List String :=
  (pySplitOnChar '\n' s.data).map List.asString

/-- Python slicing `s[:n]`. -/
def pyTake (s : String) (n : Nat) : String :=
  (s.data.take n).asString

/-- Whether `pre` is a leading segment of `l`. -/
def listStartsWith : List Char → List Char → Bool
  | [], _ => true
  | _ :: _, [] => false
  | a :: as, b :: bs => a = b && listStartsWith as bs

/-- Whether `sub` occurs contiguously inside `l`. -/
def isSubList (sub : List Char) (l : List Char) : Bool :=
  listStartsWith sub l ||
    match l with
    | [] => false
    | _ :: rest => isSubList sub rest

/-- Python `sub in s` on strings. -/
def pyIn (sub s : String) : Bool :=
  isSubList sub.data s.data

/-! ### Python dictionary values

The `inputs` mapping handled by the agents is a Python dict whose values are
strings except for `salary_breakup`, a nested dict of numeric-or-string
salary components.  Dict update (`inputs[k] = v`) replaces the value of an
existing key in place (keeping insertion order) and appends a fresh key. -/

inductive SalaryVal where
  | int : Int → SalaryVal
  | str : String → SalaryVal
deriving DecidableEq

inductive PyVal where
  | s : String → PyVal
  | dict : List (String × SalaryVal) → PyVal
deriving DecidableEq

abbrev Inputs := List (String × PyVal)

/-- Python dict assignment `d[k] = v`: overwrite in place, else append. -/
def setKey (d : Inputs) (k : String) (v : PyVal) : Inputs :=
  if d.any (fun p => p.1 == k) then
    d.map (fun p => if p.1 == k then (k, v) else p)
  else d ++ [(k, v)]

/-- Python `repr` of an int or string salary value (used when a dict is
interpolated into an f-string). -/
def salaryValRepr (v : SalaryVal) : String :=
  match v with
  | .int n => toString n
  | .str s => String.singleton (Char.ofNat 39) ++ s ++ String.singleton (Char.ofNat 39)

/-- Python `str` of a dict such as the salary breakup:
`\x7b'base': 100000, ...\x7d`. -/
def pyDictStr (items : List (String × SalaryVal)) : String :=
  "\x7b" ++
    String.intercalate ", " (items.map (fun p =>
      String.singleton (Char.ofNat 39) ++ p.1 ++ String.singleton (Char.ofNat 39) ++
        ": " ++ salaryValRepr p.2)) ++ "\x7d"

/-- Rendering of a dict value in an f-string (`str()` semantics). -/
def pyStr (v : PyVal) : String :=
  match v with
  | .s s => s
  | .dict items => pyDictStr items

/-! ### Context assembly, template path (generator.py lines 113-135)

The Python loop walks every retrieved document, splits its text into lines,
strips each line, keeps lines that mention a policy keyword and are longer
than 20 characters, bullet-prefixes them, and finally joins the first 8. -/

def policyKeywords : List String :=
  ["leave", "vacation", "policy", "benefit", "salary",
   "working hours", "probation", "ctc", "compensation",
   "annual", "medical", "insurance", "bonus", "allowance"]

/-- Keyword test applied to a (stripped) line: `any(keyword in line.lower() ...)`. -/
def lineHasKeyword (line : String) : Bool :=
  policyKeywords.any (fun kw => pyIn kw (pyLower line))

/-- Fixed default bullet used when no line qualifies. -/
def defaultBullet : String :=
  "• Standard company policies apply as per employee handbook."

/-- The accumulation loop of generator.py lines 120-131: one pass over the
documents, one pass over each document's lines, appending a bullet for every
stripped line that mentions a keyword and is longer than 20 characters. -/
def policy_snippets (docs : List String) : List String :=
  docs.flatMap (fun content =>
    ((pySplitLines content).map pyStrip).filterMap (fun line =>
      if lineHasKeyword line && line.length > 20 then some ("• " ++ line)
      else none))

/-- generator.py lines 114, 132-133: join the first 8 snippets, or keep the
default bullet when no snippet was collected. -/
def relevant_policies_of (docs : List String) : String :=
  let ps := policy_snippets docs
  if ps.isEmpty then defaultBullet
  else String.intercalate "\n" (ps.take 8)

/-! ### Salary formatting (generator.py lines 138-153)

Numeric salary components (integers in the employee CSV) render as
`  - Key: ₹{v:,.2f}` and accumulate into `total_ctc`; any other value
renders literally.  A trailing total line is appended when the accumulated
total is positive. -/

/-- Grouping pass over the reversed digit list: after every three digits a
comma is inserted when more digits follow. -/
def commaRev : List Char → List Char
  | d1 :: d2 :: d3 :: d4 :: rest => d1 :: d2 :: d3 :: ',' :: commaRev (d4 :: rest)
  | l => l

/-- Decimal digits of `n` grouped in threes with commas, as Python's
format specifier `,` renders a non-negative integer. -/
def commaGroups (n : Nat) : String :=
  ((commaRev (Nat.repr n).data.reverse).reverse).asString

/-- Python `f"\x7bv:,.2f\x7d"` on an integer value. -/
def fmtMoney (v : Int) : String :=
  (if v < 0 then "-" else "") ++ commaGroups v.natAbs ++ ".00"

/-- Python `str.title()` restricted to its effect on alphabetic words:
an alphabetic character is uppercased when the previous character was not
alphabetic and lowercased otherwise. -/
def pyTitle (s : String) : String :=
  (s.data.foldl (fun acc c =>
      let c' := if c.isAlpha then (if acc.2 then c.toLower else c.toUpper) else c
      (acc.1 ++ [c'], c.isAlpha)) (([] : List Char), false)).1.asString

/-- Python `k.replace('_', ' ')`. -/
def underscoresToSpaces (s : String) : String :=
  (s.data.map (fun c => if c = '_' then ' ' else c)).asString

/-- One line of the salary section (generator.py lines 142-147). -/
def salaryLine (k : String) (v : SalaryVal) : String :=
  match v with
  | .int n => "  - " ++ pyTitle (underscoresToSpaces k) ++ ": ₹" ++ fmtMoney n
  | .str s => "  - " ++ pyTitle (underscoresToSpaces k) ++ ": " ++ s

/-- Contribution of one item to `total_ctc` (only numeric values count). -/
def salaryContribution (v : SalaryVal) : Int :=
  match v with
  | .int n => n
  | .str _ => 0

/-- The `total_ctc` accumulator over all items. -/
def salaryTotal (items : List (String × SalaryVal)) : Int :=
  items.foldl (fun acc p => acc + salaryContribution p.2) 0

/-- generator.py lines 138-150: the joined salary lines, with the
`Total Annual CTC` line appended when the accumulated total is positive. -/
def salary_breakup_str_of (items : List (String × SalaryVal)) : String :=
  let joined := String.intercalate "\n" (items.map (fun p => salaryLine p.1 p.2))
  if salaryTotal items > 0 then
    joined ++ "\n  - Total Annual CTC: ₹" ++ fmtMoney (salaryTotal items)
  else joined

/-! ### Context assembly, generation-chain path (generator.py lines 77-90)

`get_context` queries the retriever (an external call that may raise), keeps
the top 3 documents, truncates each `page_content` to 500 characters, joins
them with a blank line, and substitutes a fixed sentence when the joined
context is blank or when retrieval raised.  The retrieval outcome is the
oracle input: `Except.error ()` models `retriever.invoke` raising, and
`Except.ok docs` models the list of retrieved `page_content` strings. -/

def defaultContext : String :=
  "Standard company policies apply as per employee handbook."

def get_context (retrieval : Except Unit (List String)) : String :=
  match retrieval with
  | .error _ => defaultContext
  | .ok docs =>
      let context := String.intercalate "\n\n" ((docs.take 3).map (fun d => pyTake d 500))
      -- Python: `context if context.strip() else default`
      if pyStrip context = "" then defaultContext else context

/-! ### The template letter (generator.py lines 108-227)

The f-string literal of lines 165-223 begins with a newline and ends with a
newline; the trailing `.strip()` of line 225 removes exactly those two
characters (the first and last non-whitespace characters are `[` and `]`),
so the stripped literal is embedded directly.  Missing required keys raise
`KeyError` in Python (the interpolations on lines 172-181 sit outside every
`try` block), modelled by `Except.error`. -/

def getItem (inputs : Inputs) (k : String) : Except String PyVal :=
  match List.lookup k inputs with
  | some v => .ok v
  | none => .error ("KeyError: " ++ String.singleton (Char.ofNat 39) ++ k ++ String.singleton (Char.ofNat 39))

def letterLit1 : String :=
  "[Company Letterhead]\nABC\n456 Corporate Drive, Los Angeles, CA 90001\n\nDate: "

def letterLit2 : String :=
  "\n\nDear "

def letterLit3 : String :=
  ",\n\nWe are pleased to extend this formal offer of employment with our organization. After careful consideration of your qualifications and experience, we believe you will be a valuable addition to our team.\n\nPOSITION DETAILS\n\nPosition Band: "

def letterLit4 : String :=
  "\nDepartment/Team: "

def letterLit5 : String :=
  "\nWork Location: "

def letterLit6 : String :=
  "\nExpected Date of Joining: "

def letterLit7 : String :=
  "\n\nCOMPENSATION PACKAGE\n\nYour annual compensation package is structured as follows:\n\n"

def letterLit8 : String :=
  "\n\nTERMS AND CONDITIONS\n\nThis employment offer is subject to the following terms and conditions based on our company policies:\n\n"

def letterLit9 : String :=
  "\n\nGENERAL CONDITIONS\n\n• Employment is contingent upon successful completion of background verification and reference checks\n• You will be subject to a probationary period as outlined in the company policy\n• All employee benefits, allowances, and entitlements will be governed by the current employee handbook\n• Working hours, leave policies, and reporting structure will be as per company standards\n• This offer is confidential and remains valid for 7 business days from the date of this letter\n• Any changes to this offer must be agreed upon in writing by both parties\n\nACCEPTANCE AND NEXT STEPS\n\nTo accept this offer, please:\n1. Sign and return a copy of this letter\n2. Complete the attached joining formalities checklist\n3. Submit all required documentation as specified by HR\n\nWe are excited about the prospect of you joining our team and look forward to your positive response. Should you have any questions regarding this offer or require clarification on any aspect, please do not hesitate to contact our Human Resources department.\n\nWe welcome you to our organization and are confident that this will be the beginning of a mutually beneficial professional relationship.\n\nWarm regards,\nAarti Nair\nHR Business Partner\nABC\n\n---\nThis offer letter was generated on "

def letterLit10 : String :=
  "\nFor queries or clarifications, please contact HR at [hr@company.com]"

/-- The f-string of generator.py lines 165-223, cut at its interpolation
points (`letterLit1` .. `letterLit10` are its successive literal pieces). -/
def letterBody (current_date name band team location joining_date
    salary_breakup_str relevant_policies : String) : String :=
  letterLit1 ++ current_date ++ letterLit2 ++ name ++ letterLit3 ++ band ++
  letterLit4 ++ team ++ letterLit5 ++ location ++ letterLit6 ++ joining_date ++
  letterLit7 ++ salary_breakup_str ++ letterLit8 ++ relevant_policies ++
  letterLit9 ++ current_date ++ letterLit10

/-- The fallback salary text of generator.py line 153 (any error while
formatting the salary breakup — missing key, non-dict value — is caught and
replaced by this sentence). -/
def salaryFallbackText : String :=
  "Please refer to the detailed salary structure provided separately."

/-- generator.py lines 111-225 (`generate_offer_letter` inside
`get_template_based_agent`): `templateDocs` is the outcome of the `k = 3`
retriever call (error = raised), `now` the wall clock at generation time.
The inner `try` of lines 116-135 turns a retrieval failure into the default
bullet; the inner `try` of lines 138-153 turns any salary-formatting failure
(missing `salary_breakup` key, non-dict value) into the fallback sentence. -/
def generate_offer_letter (templateDocs : Except Unit (List String))
    (now : PyDateTime) (inputs : Inputs) : Except String String := do
  let relevant_policies :=
    match templateDocs with
    | .error _ => defaultBullet
    | .ok ds => relevant_policies_of ds
  let salary_breakup_str :=
    match List.lookup "salary_breakup" inputs with
    | some (.dict items) => salary_breakup_str_of items
    | _ => salaryFallbackText
  let name ← getItem inputs "name"
  let band ← getItem inputs "band"
  let team ← getItem inputs "team"
  let location ← getItem inputs "location"
  let joining_date ← getItem inputs "joining_date"
  .ok (letterBody (fmtDateYMD now) (pyStr name) (pyStr band) (pyStr team)
        (pyStr location) (pyStr joining_date) salary_breakup_str relevant_policies)

/-! ### The LLM backends and the fallback agent (generator.py lines 15-267)

External nondeterminism is collected in one oracle, fixed for an agent
instance's lifetime:
* `apiKeyPresent` — whether `OPENROUTER_API_KEY` is set;
* `probeOk` — whether the connectivity probe
  `llm.invoke ("Generate a test sentence.")` of line 27 succeeds;
* `chainOk`, `chainText` — whether a full generation call through the
  composed chain succeeds at request time, and the text it produces;
* `templateDocs` — the retriever outcome seen by the template generator.

Each call to `get_working_llm` performs the connectivity probe exactly when
the key is present (lines 34-48); probes are counted explicitly so that the
memoization behaviour can be stated. -/

structure LLMWorld where
  apiKeyPresent : Bool
  probeOk : Bool
  chainOk : Bool
  chainText : String
  templateDocs : Except Unit (List String)

/-- Number of live connectivity probes one `get_working_llm` call performs. -/
def probeCost (w : LLMWorld) : Nat :=
  if w.apiKeyPresent then 1 else 0

/-- generator.py lines 34-48: `some ()` models a working LLM handle. -/
def get_working_llm (w : LLMWorld) : Option Unit × Nat :=
  if w.apiKeyPresent then
    ((if w.probeOk then some () else none), 1)
  else (none, 0)

/-- Which object `get_agent` returned: the composed LLM chain
(a `RunnableSequence`) or the template generator (a `RunnableLambda`). -/
inductive AgentKind where
  | chain
  | template
deriving DecidableEq

/-- generator.py lines 50-106: the chain when an LLM is available, the
template agent otherwise (chain construction itself, lines 93-103, cannot
fail: it only composes runnables).  Also returns the probe count. -/
def get_agent (w : LLMWorld) : AgentKind × Nat :=
  ((if (get_working_llm w).1.isSome then AgentKind.chain else AgentKind.template),
   (get_working_llm w).2)

/-- Invoking the object `get_agent` returned (`self.agent.invoke(inputs)`).
The chain's behaviour is the oracle's; the template generator runs the
translated `generate_offer_letter`. -/
def agentInvoke (w : LLMWorld) (a : AgentKind) (now : PyDateTime)
    (inputs : Inputs) : Except String String :=
  match a with
  | .chain => if w.chainOk then .ok w.chainText else .error "LLM chain invocation failed"
  | .template => generate_offer_letter w.templateDocs now inputs

/-- The mutable attributes of a `RobustFallbackAgent` instance. -/
structure RFAState where
  agent : AgentKind
  llmAgent : Bool
  initAttempted : Bool
deriving DecidableEq

/-- generator.py lines 232-236 (`__init__`): builds the full agent chain via
`get_agent` (one `get_working_llm` call inside) and then calls
`get_working_llm` once more directly, leaving `_initialization_attempted`
false.  Returns the state and the number of probes performed. -/
def RobustFallbackAgent.init (w : LLMWorld) : RFAState × Nat :=
  (⟨(get_agent w).1, (get_working_llm w).1.isSome, false⟩,
   (get_agent w).2 + (get_working_llm w).2)

/-- generator.py lines 238-246 (`_initialize_llm`): re-runs
`get_working_llm` unless an attempt was already recorded. -/
def RobustFallbackAgent.init_llm (w : LLMWorld) (st : RFAState) : RFAState × Nat :=
  if st.initAttempted then (st, 0)
  else (⟨st.agent, (get_working_llm w).1.isSome, true⟩, (get_working_llm w).2)

structure InvokeOut where
  result : Except String String
  state : RFAState
  inputs : Inputs
  probes : Nat

/-- generator.py lines 248-267 (`invoke`): overwrites
`inputs['generated_date']` in place with the long-format timestamp, runs
`_initialize_llm`, tries `self.agent.invoke` when `self._llm_agent` is set
(catching any exception), and otherwise executes the fallback line 265:
`self.agent.invoke(inputs) if isinstance(self.agent, RunnableLambda) else
self.agent(inputs)`.  When `self.agent` is the composed chain, that line
calls a `RunnableSequence` as a function — `langchain_core` runnables define
no `__call__` — so it raises `TypeError` instead of producing a letter. -/
def RobustFallbackAgent.invoke (w : LLMWorld) (st : RFAState)
    (inputs : Inputs) (now : PyDateTime) : InvokeOut :=
  let inputs' := setKey inputs "generated_date" (.s (fmtDateLong now))
  let st' := (RobustFallbackAgent.init_llm w st).1
  let p := (RobustFallbackAgent.init_llm w st).2
  let fallbackResult : Except String String :=
    match st'.agent with
    | .template => agentInvoke w .template now inputs'
    | .chain => .error "TypeError: 'RunnableSequence' object is not callable"
  if st'.llmAgent then
    match agentInvoke w st'.agent now inputs' with
    | .ok r => ⟨.ok r, st', inputs', p⟩
    | .error _ => ⟨fallbackResult, st', inputs', p⟩
  else ⟨fallbackResult, st', inputs', p⟩

/-- A sequence of `invoke` calls on one instance (same inputs and clock —
neither influences probing), returning the final state and total probes. -/
def runInvokes (w : LLMWorld) (st : RFAState) (inputs : Inputs)
    (now : PyDateTime) : Nat → RFAState × Nat
  | 0 => (st, 0)
  | n + 1 =>
      ((runInvokes w (RobustFallbackAgent.invoke w st inputs now).state
          (RobustFallbackAgent.invoke w st inputs now).inputs now n).1,
       (RobustFallbackAgent.invoke w st inputs now).probes +
         (runInvokes w (RobustFallbackAgent.invoke w st inputs now).state
            (RobustFallbackAgent.invoke w st inputs now).inputs now n).2)

/-- Total live probes performed by one instance after construction followed
by `n` invocations. -/
def totalProbes (w : LLMWorld) (inputs : Inputs) (now : PyDateTime) (n : Nat) : Nat :=
  (RobustFallbackAgent.init w).2 +
    (runInvokes w (RobustFallbackAgent.init w).1 inputs now n).2

/-! ### Employee lookup and the orchestrator (offer_letter_agent.py)

The employee CSV is modelled as the list of its rows after the header
normalization of line 38 (so the required columns are present by
construction, as claimed for a well-formed file).  `get_employee_record`
filters on a case-insensitive name match and takes the first row
(`record.iloc[0]`); an empty match raises `ValueError`, which the enclosing
`except` of lines 47-49 rewraps as `RuntimeError ("CSV read error: ...")`. -/

structure EmployeeRow where
  employee_name : String
  band : String
  department : String
  location : String
  joining_date : String
  base_salary : SalaryVal
  performance_bonus : SalaryVal
  retention_bonus : SalaryVal
  total_ctc : SalaryVal
deriving DecidableEq

def get_employee_record (rows : List EmployeeRow) (name : String) :
    Except String EmployeeRow :=
  match (rows.filter (fun r => pyLower r.employee_name == pyLower name)).head? with
  | some r => .ok r
  | none => .error ("CSV read error: No employee found with name: " ++ name)

/-- offer_letter_agent.py lines 59-73: the `input_data` dict. -/
def input_data (emp : EmployeeRow) (t1 : PyDateTime) : Inputs :=
  [("name", .s emp.employee_name),
   ("band", .s emp.band),
   ("team", .s emp.department),
   ("location", .s emp.location),
   ("joining_date", .s emp.joining_date),
   ("salary_breakup", .dict
      [("base", emp.base_salary), ("bonus", emp.performance_bonus),
       ("retention", emp.retention_bonus), ("total", emp.total_ctc)]),
   ("query", .s ("Offer letter for " ++ emp.employee_name ++ " joining " ++
      emp.department ++ " at " ++ emp.location ++ " on " ++ emp.joining_date)),
   ("generated_date", .s (fmtDateShort t1))]

/-- The dict returned by `generate_offer_for` on success
(offer_letter_agent.py lines 79-91). -/
structure OfferResult where
  offer_letter : String
  method : String
  detail_name : String
  detail_band : String
  detail_department : String
  detail_location : String
  detail_joining_date : String
  detail_salary : SalaryVal
  generated_on : String

/-- offer_letter_agent.py lines 51-94.  `t1` is the clock when `input_data`
is built (line 72), `t2` the clock inside `agent.invoke` (generator.py line
250).  Any exception — including the lookup failure for an unknown name — is
rewrapped by lines 92-94 as `RuntimeError ("Offer generation failed: ...")`.
The `if employee is None` branch of lines 54-55 (returning an error dict) is
unreachable: `get_employee_record` raises instead of returning `None`.
Line 90 reads `input_data["generated_date"]` from the same dict object the
agent mutated in place, so the model reads it from the agent's output dict. -/
def generate_offer_for (rows : List EmployeeRow) (w : LLMWorld)
    (t1 t2 : PyDateTime) (name : String) : Except String OfferResult :=
  match get_employee_record rows name with
  | .error e => .error ("Offer generation failed: " ++ e)
  | .ok employee =>
      let d0 := input_data employee t1
      let st := (RobustFallbackAgent.init w).1
      let out := RobustFallbackAgent.invoke w st d0 t2
      match out.result with
      | .error e => .error ("Offer generation failed: " ++ e)
      | .ok letter =>
          match List.lookup "generated_date" out.inputs with
          | none => .error "Offer generation failed: KeyError"
          | some gd =>
              .ok { offer_letter := letter,
                    method := "llm_or_template_fallback",
                    detail_name := employee.employee_name,
                    detail_band := employee.band,
                    detail_department := employee.department,
                    detail_location := employee.location,
                    detail_joining_date := employee.joining_date,
                    detail_salary := employee.total_ctc,
                    generated_on := pyStr gd }

/-! ### The vector index build (embedder.py lines 16-78)

The Pinecone service and the embedding backend are oracles: `embed` is the
embedding model (`get_vectorstore` probes it with the literal sample string
to learn the dimension), `existing` the names of the indexes already present
remotely.  The result records the observable remote effects: which index was
created (name, dimension, metric, cloud, region), which texts were upserted,
and whether an existing index was attached to instead. -/

structure PineconeEnv where
  indexName : String
  cloud : String
  region : String
  apiKey : Option String
  existing : List String
  embed : String → List Int

structure VSResult where
  created : Option (String × Nat × String × String × String)
  upserted : List String
  attachedExisting : Bool
deriving DecidableEq

/-- embedder.py lines 20-78 (`get_vectorstore`). -/
def get_vectorstore (env : PineconeEnv) (docs : Option (List String)) :
    Except String VSResult :=
  let dimension := (env.embed "sample text").length
  match env.apiKey with
  | none => .error "PINECONE_API_KEY environment variable not set"
  | some _ =>
      if env.indexName ∈ env.existing then
        .ok ⟨none, [], true⟩
      else
        match docs with
        | none => .error ("Docs required to initialize a new index: " ++ env.indexName)
        | some ds =>
            .ok ⟨some (env.indexName, dimension, "cosine", env.cloud, env.region), ds, false⟩

/-! ### The chunker

Modelled from the spec: the splitting algorithm behind
`chunk_text` (chunker.py lines 3-5) is `RecursiveCharacterTextSplitter`
from the external langchain library — the repository contains only the
parameter-forwarding wrapper — so the chunker is modelled from the spec's
words (§4.2): a finite sequence of segments of at most `chunk_size`
characters in which consecutive chunks share `overlap` characters, covering
the whole text.  Text is a list of characters. -/

def chunk_text (text : List Char) (chunk_size : Nat := 600) (overlap : Nat := 80) :
    List (List Char) :=
  if text = [] then []
  else if text.length ≤ chunk_size then [text]
  else if overlap < chunk_size then
    text.take chunk_size :: chunk_text (text.drop (chunk_size - overlap)) chunk_size overlap
  else [text]
termination_by text.length
decreasing_by
  simp only [List.length_drop]
  rename_i h1 h2 h3
  have : 0 < text.length := by
    cases text with
    | nil => exact absurd rfl h1
    | cons a l => simp
  omega

/-- Concatenation of the chunks with the leading `overlap` characters of
every chunk after the first removed. -/
def dropOverlaps (overlap : Nat) : List (List Char) → List Char
  | [] => []
  | c :: cs => c ++ (cs.map (List.drop overlap)).flatten

/-! ### Concrete fixtures used by witnesses and counterexamples -/

/-- A well-formed employee row (salary values as in the spec's example). -/
def empAlice : EmployeeRow :=
  ⟨"Alice Kumar", "B2", "Engineering", "Bengaluru", "2025-05-01",
   .int 100000, .int 20000, .int 5000, .int 125000⟩

/-- A second row sharing `empAlice`'s name up to case. -/
def empAliceDup : EmployeeRow :=
  ⟨"alice kumar", "B3", "Sales", "Pune", "2025-06-01",
   .int 1, .int 2, .int 3, .int 6⟩

/-- Oracle: `OPENROUTER_API_KEY` is absent (the generation credential is
missing), so only the template path exists. -/
def worldTemplateOnly : LLMWorld := ⟨false, false, false, "", .ok []⟩

/-- Oracle: the credential is present and the connectivity probe succeeds,
but the chain's full generation call fails at request time (for example a
rate-limit error on the larger request). -/
def worldChainFails : LLMWorld := ⟨true, true, false, "", .ok []⟩

def sampleT1 : PyDateTime := ⟨2025, 4, 5, 9, 30, false⟩

def sampleT2 : PyDateTime := ⟨2025, 4, 5, 10, 45, true⟩

/-- Pinecone oracle with no pre-existing index (3-dimensional embedding). -/
def envFresh : PineconeEnv :=
  ⟨"offer-letter-index", "aws", "us-west-2", some "key", [], fun _ => [1, 2, 3]⟩

/-- Pinecone oracle where the configured index already exists. -/
def envExisting : PineconeEnv :=
  ⟨"offer-letter-index", "aws", "us-west-2", some "key", ["offer-letter-index"],
   fun _ => [1, 2, 3]⟩

/-- C3: for a salary breakup whose four values (base, bonus, retention,
total) are all numeric, the template-backed generator renders one line per
item (`salaryLine`, which carries the ₹ symbol and the thousands-separated
two-decimal rendering `fmtMoney`) followed by a total line equal to the sum
of the four values; a non-numeric value renders literally on its line and
contributes nothing to the accumulated total. -/
theorem c3_salary_breakup_rendering (b bo r t : Int) (hpos : 0 < b + bo + r + t)
    (k s : String) (items : List (String × SalaryVal)) :
    salary_breakup_str_of
        [("base", .int b), ("bonus", .int bo), ("retention", .int r), ("total", .int t)] =
      String.intercalate "\n"
        [salaryLine "base" (.int b), salaryLine "bonus" (.int bo),
         salaryLine "retention" (.int r), salaryLine "total" (.int t)] ++
      "\n  - Total Annual CTC: ₹" ++ fmtMoney (b + bo + r + t) ∧
    (∀ n : Int, salaryLine k (.int n) =
      "  - " ++ pyTitle (underscoresToSpaces k) ++ ": ₹" ++ fmtMoney n) ∧
    salaryLine k (.str s) = "  - " ++ pyTitle (underscoresToSpaces k) ++ ": " ++ s ∧
    salaryTotal (items ++ [(k, .str s)]) = salaryTotal items := by
  refine ⟨?_, fun n => rfl, rfl, ?_⟩
  · have htot : salaryTotal
        [("base", SalaryVal.int b), ("bonus", SalaryVal.int bo),
         ("retention", SalaryVal.int r), ("total", SalaryVal.int t)] = b + bo + r + t := by
      simp [salaryTotal, salaryContribution]
    simp only [salary_breakup_str_of, htot, if_pos hpos]
    rfl
  · simp [salaryTotal, List.foldl_append, salaryContribution]

/-- Witness for `c3_salary_breakup_rendering` at the spec's example
`\x7bbase: 100000, bonus: 20000, retention: 5000, total: 125000\x7d`. -/
theorem c3_salary_breakup_rendering_witness :
    (0 : Int) < 100000 + 20000 + 5000 + 125000 ∧
    salary_breakup_str_of
        [("base", .int 100000), ("bonus", .int 20000),
         ("retention", .int 5000), ("total", .int 125000)] =
      String.intercalate "\n"
        [salaryLine "base" (.int 100000), salaryLine "bonus" (.int 20000),
         salaryLine "retention" (.int 5000), salaryLine "total" (.int 125000)] ++
      "\n  - Total Annual CTC: ₹" ++ fmtMoney (100000 + 20000 + 5000 + 125000) :=
  ⟨by decide,
   (c3_salary_breakup_rendering 100000 20000 5000 125000 (by decide) "note" "N/A"
      [("base", .int 1)]).1⟩

/-- Auxiliary: a filterMap whose function is a guarded map equals map after
filter. -/
theorem filterMap_guard_eq {α β : Type} (p : α → Bool) (f : α → β) (l : List α) :
    l.filterMap (fun x => if p x then some (f x) else none) = (l.filter p).map f := by
  induction l with
  | nil => rfl
  | cons a l ih =>
      by_cases h : p a <;> simp [List.filterMap_cons, List.filter_cons, h, ih]

/-- Auxiliary: filtering distributes over flatMap. -/
theorem filter_flatMap_eq {α β : Type} (p : β → Bool) (g : α → List β) (l : List α) :
    (l.flatMap g).filter p = l.flatMap (fun x => (g x).filter p) := by
  induction l with
  | nil => rfl
  | cons a l ih => simp [List.flatMap_cons, List.filter_append, ih]

/-- C6: the template-path context is exactly the keyword-matching stripped
lines longer than 20 characters (in order, across all retrieved chunks),
each bullet-prefixed, capped at the first 8 and joined with newlines; when
no line qualifies it is the fixed default bullet. -/
theorem c6_template_context_exact (docs : List String) :
    relevant_policies_of docs =
      if (docs.flatMap (fun c => (pySplitLines c).map pyStrip)).filter
           (fun l => l.length > 20 && lineHasKeyword l) = [] then
        defaultBullet
      else
        String.intercalate "\n"
          ((((docs.flatMap (fun c => (pySplitLines c).map pyStrip)).filter
              (fun l => l.length > 20 && lineHasKeyword l)).take 8).map
            (fun l => "• " ++ l)) := by
  have hsnip : policy_snippets docs =
      ((docs.flatMap (fun c => (pySplitLines c).map pyStrip)).filter
        (fun l => l.length > 20 && lineHasKeyword l)).map (fun l => "• " ++ l) := by
    unfold policy_snippets
    have hcomm : ∀ l : List String,
        l.filter (fun x => lineHasKeyword x && x.length > 20) =
        l.filter (fun x => x.length > 20 && lineHasKeyword x) := by
      intro l
      apply List.filter_congr
      intro x _
      exact Bool.and_comm _ _
    calc docs.flatMap (fun content =>
            ((pySplitLines content).map pyStrip).filterMap (fun line =>
              if lineHasKeyword line && line.length > 20 then some ("• " ++ line)
              else none))
        = docs.flatMap (fun content =>
            (((pySplitLines content).map pyStrip).filter
              (fun line => lineHasKeyword line && line.length > 20)).map
              (fun l => "• " ++ l)) := by
          simp only [filterMap_guard_eq]
      _ = ((docs.flatMap (fun c => (pySplitLines c).map pyStrip)).filter
            (fun l => l.length > 20 && lineHasKeyword l)).map (fun l => "• " ++ l) := by
          rw [filter_flatMap_eq, ← List.map_flatMap]
          simp only [hcomm]
  unfold relevant_policies_of
  rw [hsnip]
  by_cases h : (docs.flatMap (fun c => (pySplitLines c).map pyStrip)).filter
      (fun l => l.length > 20 && lineHasKeyword l) = []
  · simp [h]
  · rw [if_neg h, if_neg (by simpa using h), List.map_take]

/-- C7 counterexample: for the retrieved chunk list `[" "]` the blank-line
join of the (truncated) top 3 chunks is the non-empty string `" "`, yet
`get_context` returns the fixed default sentence instead of that join —
refuting the claim that the default is substituted only when the join is
empty or retrieval raised. -/
theorem c7_counterexample_whitespace_join :
    get_context (Except.ok [" "]) = defaultContext ∧
    String.intercalate "\n\n" ((([" "] : List String).take 3).map (fun d => pyTake d 500)) = " " ∧
    (" " : String) ≠ "" ∧
    (" " : String) ≠ defaultContext := by
  refine ⟨by decide, by decide, by decide, by decide⟩

/-- C7 amended: the generation-chain context is the blank-line join of the
top 3 retrieved chunks, each truncated to 500 characters, except that the
fixed default sentence is returned when that join is empty or consists only
of whitespace, or when retrieval raised; the failure never propagates. -/
theorem c7_amended_chain_context (docs : List String) :
    get_context (Except.error ()) = defaultContext ∧
    (pyStrip (String.intercalate "\n\n" ((docs.take 3).map (fun d => pyTake d 500))) = "" →
      get_context (Except.ok docs) = defaultContext) ∧
    (pyStrip (String.intercalate "\n\n" ((docs.take 3).map (fun d => pyTake d 500))) ≠ "" →
      get_context (Except.ok docs) =
        String.intercalate "\n\n" ((docs.take 3).map (fun d => pyTake d 500))) := by
  refine ⟨rfl, ?_, ?_⟩ <;> intro h
  · show (if pyStrip (String.intercalate "\n\n" ((docs.take 3).map (fun d => pyTake d 500))) = ""
        then defaultContext
        else String.intercalate "\n\n" ((docs.take 3).map (fun d => pyTake d 500))) = defaultContext
    rw [if_pos h]
  · show (if pyStrip (String.intercalate "\n\n" ((docs.take 3).map (fun d => pyTake d 500))) = ""
        then defaultContext
        else String.intercalate "\n\n" ((docs.take 3).map (fun d => pyTake d 500))) =
      String.intercalate "\n\n" ((docs.take 3).map (fun d => pyTake d 500))
    rw [if_neg h]

/-- Witness for `c7_amended_chain_context` at the one-chunk list
`["hello"]`. -/
theorem c7_amended_chain_context_witness :
    pyStrip (String.intercalate "\n\n"
      (((["hello"] : List String).take 3).map (fun d => pyTake d 500))) ≠ "" ∧
    get_context (Except.ok ["hello"]) =
      String.intercalate "\n\n" (((["hello"] : List String).take 3).map (fun d => pyTake d 500)) :=
  ⟨by decide, (c7_amended_chain_context ["hello"]).2.2 (by decide)⟩

/-- C9: employee lookup is case-insensitive — two casings of a name yield
the same successful record (and, whenever some row matches, identical
outcomes) — and when several rows match, the first matching row wins. -/
theorem c9_lookup_case_insensitive_first_match (rows : List EmployeeRow)
    (n₁ n₂ : String) (hcase : pyLower n₁ = pyLower n₂) :
    (∀ r, get_employee_record rows n₁ = .ok r ↔ get_employee_record rows n₂ = .ok r) ∧
    (∀ r rs, rows = r :: rs → pyLower r.employee_name = pyLower n₁ →
      get_employee_record rows n₁ = .ok r) ∧
    ((∃ r ∈ rows, pyLower r.employee_name = pyLower n₁) →
      get_employee_record rows n₁ = get_employee_record rows n₂) := by
  have hfilter : rows.filter (fun r => pyLower r.employee_name == pyLower n₁) =
      rows.filter (fun r => pyLower r.employee_name == pyLower n₂) := by
    simp only [hcase]
  refine ⟨?_, ?_, ?_⟩
  · intro r
    unfold get_employee_record
    rw [hfilter]
    cases (rows.filter (fun r => pyLower r.employee_name == pyLower n₂)).head? <;> simp
  · intro r rs hrows hname
    subst hrows
    unfold get_employee_record
    rw [List.filter_cons_of_pos (by simp [hname])]
    rfl
  · rintro ⟨r, hr, hname⟩
    unfold get_employee_record
    rw [hfilter]
    cases hh : (rows.filter (fun r => pyLower r.employee_name == pyLower n₂)).head? with
    | some r' => rfl
    | none =>
        exfalso
        rw [List.head?_eq_none_iff] at hh
        have := List.filter_eq_nil_iff.mp hh r hr
        rw [hcase] at hname
        simp [hname] at this

/-- Witness for `c9_lookup_case_insensitive_first_match`: with two rows both
named "alice kumar" up to case, the query "ALICE KUMAR" returns the first
row. -/
theorem c9_lookup_case_insensitive_first_match_witness :
    pyLower "ALICE KUMAR" = pyLower "alice kumar" ∧
    get_employee_record [empAlice, empAliceDup] "ALICE KUMAR" = .ok empAlice :=
  ⟨by decide,
   (c9_lookup_case_insensitive_first_match [empAlice, empAliceDup]
      "ALICE KUMAR" "alice kumar" (by decide)).2.1 empAlice [empAliceDup] rfl (by decide)⟩

/-- C4: with the credential configured, `get_vectorstore` creates a remote
index — named as configured, with cosine metric and the dimension obtained
by probing the embedding model with the sample string — and upserts the
supplied chunks when no index of that name exists; when one exists it
attaches to it, creates nothing and writes none of the new chunks. -/
theorem c4_vectorstore_build (env : PineconeEnv) (ds : List String)
    (hk : env.apiKey.isSome) :
    (env.indexName ∉ env.existing →
      get_vectorstore env (some ds) =
        .ok ⟨some (env.indexName, (env.embed "sample text").length, "cosine",
              env.cloud, env.region), ds, false⟩) ∧
    (env.indexName ∈ env.existing →
      ∀ docs, get_vectorstore env docs = .ok ⟨none, [], true⟩) := by
  obtain ⟨k, hk⟩ := Option.isSome_iff_exists.mp hk
  constructor
  · intro h
    simp [get_vectorstore, hk, h]
  · intro h docs
    simp [get_vectorstore, hk, h]

/-- Witness for `c4_vectorstore_build`: a fresh environment creates the
index and writes the chunks; a pre-populated environment attaches and
writes nothing. -/
theorem c4_vectorstore_build_witness :
    get_vectorstore envFresh (some ["chunk one", "chunk two"]) =
      .ok ⟨some ("offer-letter-index", 3, "cosine", "aws", "us-west-2"),
           ["chunk one", "chunk two"], false⟩ ∧
    get_vectorstore envExisting (some ["chunk one"]) = .ok ⟨none, [], true⟩ :=
  ⟨(c4_vectorstore_build envFresh ["chunk one", "chunk two"] (by decide)).1 (by decide),
   (c4_vectorstore_build envExisting [] (by decide)).2 (by decide) (some ["chunk one"])⟩

/-- Auxiliary for the chunker: dropping the overlap from every chunk and
flattening yields the text with its first `overlap` characters removed. -/
theorem chunk_flatten_drop (cs ov : Nat) (hov : ov < cs) :
    ∀ n (text : List Char), text.length ≤ n →
      ((chunk_text text cs ov).map (List.drop ov)).flatten = text.drop ov := by
  intro n
  induction n with
  | zero =>
      intro text hlen
      have : text = [] := List.eq_nil_of_length_eq_zero (Nat.le_zero.mp hlen)
      subst this
      simp [chunk_text]
  | succ n ih =>
      intro text hlen
      by_cases h1 : text = []
      · simp [chunk_text, h1]
      by_cases h2 : text.length ≤ cs
      · rw [chunk_text, if_neg h1, if_pos h2]
        simp
      · rw [chunk_text, if_neg h1, if_neg h2, if_pos hov]
        have hlen' : (text.drop (cs - ov)).length ≤ n := by
          rw [List.length_drop]
          omega
        rw [List.map_cons, List.flatten_cons, ih (text.drop (cs - ov)) hlen']
        rw [List.drop_drop]
        have hcs : cs - ov + ov = cs := by omega
        rw [hcs, List.drop_take]
        conv_rhs => rw [← List.take_append_drop (cs - ov) (text.drop ov)]
        rw [List.drop_drop]
        have hcs' : ov + (cs - ov) = cs := by omega
        rw [hcs']

/-- Auxiliary for the chunker: every produced chunk has length at most
`chunk_size`. -/
theorem chunk_length_le (cs ov : Nat) (hov : ov < cs) :
    ∀ n (text : List Char), text.length ≤ n →
      ∀ c ∈ chunk_text text cs ov, c.length ≤ cs := by
  intro n
  induction n with
  | zero =>
      intro text hlen
      have : text = [] := List.eq_nil_of_length_eq_zero (Nat.le_zero.mp hlen)
      subst this
      simp [chunk_text]
  | succ n ih =>
      intro text hlen c hc
      by_cases h1 : text = []
      · simp [chunk_text, h1] at hc
      by_cases h2 : text.length ≤ cs
      · rw [chunk_text, if_neg h1, if_pos h2] at hc
        simp at hc
        subst hc
        exact h2
      · rw [chunk_text, if_neg h1, if_neg h2, if_pos hov] at hc
        rcases List.mem_cons.mp hc with hhd | htl
        · subst hhd
          simp
        · have hlen' : (text.drop (cs - ov)).length ≤ n := by
            rw [List.length_drop]
            omega
          exact ih (text.drop (cs - ov)) hlen' c htl

/-- C8 (spec-modelled): for all `chunk_size > overlap ≥ 0` and any text,
concatenating the chunks of `chunk_text` with overlaps removed reconstructs
the text, and every chunk has length at most `chunk_size`. -/
theorem c8_chunker_reconstruction (chunk_size overlap : Nat) (text : List Char)
    (h : overlap < chunk_size) :
    dropOverlaps overlap (chunk_text text chunk_size overlap) = text ∧
    ∀ c ∈ chunk_text text chunk_size overlap, c.length ≤ chunk_size := by
  refine ⟨?_, chunk_length_le chunk_size overlap h text.length text (le_refl _)⟩
  by_cases h1 : text = []
  · simp [chunk_text, dropOverlaps, h1]
  by_cases h2 : text.length ≤ chunk_size
  · rw [chunk_text, if_neg h1, if_pos h2]
    simp [dropOverlaps]
  · rw [chunk_text, if_neg h1, if_neg h2, if_pos h]
    rw [dropOverlaps]
    rw [chunk_flatten_drop chunk_size overlap h (text.drop (chunk_size - overlap)).length _
          (le_refl _)]
    rw [List.drop_drop]
    have : chunk_size - overlap + overlap = chunk_size := by omega
    rw [this]
    exact List.take_append_drop _ _

/-- Witness for `c8_chunker_reconstruction` at chunk size 4, overlap 1, on
the ten-character text "abcdefghij". -/
theorem c8_chunker_reconstruction_witness :
    1 < 4 ∧
    dropOverlaps 1 (chunk_text "abcdefghij".data 4 1) = "abcdefghij".data :=
  ⟨by decide, (c8_chunker_reconstruction 4 1 "abcdefghij".data (by decide)).1⟩

/-- Auxiliary: the template letter contains the candidate name verbatim. -/
theorem letterBody_has_name (d n b t l j s p : String) :
    ∃ pre post, letterBody d n b t l j s p = pre ++ n ++ post :=
  ⟨letterLit1 ++ d ++ letterLit2,
   letterLit3 ++ b ++ letterLit4 ++ t ++ letterLit5 ++ l ++ letterLit6 ++ j ++
     letterLit7 ++ s ++ letterLit8 ++ p ++ letterLit9 ++ d ++ letterLit10,
   by simp [letterBody, String.append_assoc]⟩

/-- Auxiliary: the template letter contains the team/department verbatim. -/
theorem letterBody_has_team (d n b t l j s p : String) :
    ∃ pre post, letterBody d n b t l j s p = pre ++ t ++ post :=
  ⟨letterLit1 ++ d ++ letterLit2 ++ n ++ letterLit3 ++ b ++ letterLit4,
   letterLit5 ++ l ++ letterLit6 ++ j ++ letterLit7 ++ s ++ letterLit8 ++ p ++
     letterLit9 ++ d ++ letterLit10,
   by simp [letterBody, String.append_assoc]⟩

/-- Auxiliary: the template letter is never the empty string. -/
theorem letterBody_ne_empty (d n b t l j s p : String) :
    letterBody d n b t l j s p ≠ "" := by
  intro hc
  have hpos : 0 < letterLit1.length := by decide
  have hlen := congrArg String.length hc
  rw [show ("" : String).length = 0 from rfl] at hlen
  simp only [letterBody, String.length_append] at hlen
  omega

/-- C1 (code bug): when the credential probe succeeds at construction but
the model-backed chain fails at request time, the fallback line
`self.agent.invoke(inputs) if isinstance(self.agent, RunnableLambda) else
self.agent(inputs)` calls the chain object — not the template generator —
as a function, so `invoke` raises `TypeError` to the caller instead of
returning the template letter.  When the credential is absent, `invoke`
does return a non-empty letter containing the employee's name and
department, as the claim states. -/
theorem c1_fallback_composition :
    (RobustFallbackAgent.invoke worldChainFails
        (RobustFallbackAgent.init worldChainFails).1
        (input_data empAlice sampleT1) sampleT2).result =
      Except.error "TypeError: 'RunnableSequence' object is not callable" ∧
    ∃ letter,
      (RobustFallbackAgent.invoke worldTemplateOnly
          (RobustFallbackAgent.init worldTemplateOnly).1
          (input_data empAlice sampleT1) sampleT2).result = Except.ok letter ∧
      letter ≠ "" ∧
      (∃ pre post, letter = pre ++ "Alice Kumar" ++ post) ∧
      (∃ pre post, letter = pre ++ "Engineering" ++ post) := by
  refine ⟨rfl,
    letterBody (fmtDateYMD sampleT2) "Alice Kumar" "B2" "Engineering" "Bengaluru"
      "2025-05-01"
      (salary_breakup_str_of
        [("base", .int 100000), ("bonus", .int 20000),
         ("retention", .int 5000), ("total", .int 125000)])
      (relevant_policies_of []),
    rfl, letterBody_ne_empty _ _ _ _ _ _ _ _, letterBody_has_name _ _ _ _ _ _ _ _,
    letterBody_has_team _ _ _ _ _ _ _ _⟩

/-- C2 (code bug): for a name absent from the employee CSV,
`generate_offer_for` raises a wrapped `RuntimeError` — the same
"Offer generation failed" failure shape every generation error gets —
instead of returning the NotFound error dict; the `if employee is None`
branch that would produce the distinct NotFound outcome is unreachable
because `get_employee_record` raises rather than returning `None`. -/
theorem c2_unknown_name_is_wrapped_failure :
    generate_offer_for [empAlice] worldTemplateOnly sampleT1 sampleT2 "Bob" =
      Except.error
        "Offer generation failed: CSV read error: No employee found with name: Bob" :=
  rfl

/-- Auxiliary: once `_initialization_attempted` is set, an invocation
performs no probe and leaves the instance state unchanged. -/
theorem invoke_after_attempt (w : LLMWorld) (st : RFAState) (inputs : Inputs)
    (now : PyDateTime) (h : st.initAttempted = true) :
    (RobustFallbackAgent.invoke w st inputs now).probes = 0 ∧
    (RobustFallbackAgent.invoke w st inputs now).state = st := by
  have hil : RobustFallbackAgent.init_llm w st = (st, 0) := by
    unfold RobustFallbackAgent.init_llm
    rw [if_pos h]
  unfold RobustFallbackAgent.invoke
  rw [hil]
  dsimp only
  constructor <;> (split <;> first | rfl | (split <;> rfl))

/-- Auxiliary: with `_initialization_attempted` set, any number of further
invocations performs no probe. -/
theorem runInvokes_after_attempt (w : LLMWorld) (now : PyDateTime) :
    ∀ (n : Nat) (st : RFAState) (inputs : Inputs), st.initAttempted = true →
      (runInvokes w st inputs now n).2 = 0 := by
  intro n
  induction n with
  | zero => intro st inputs _; rfl
  | succ n ih =>
      intro st inputs h
      have h1 := invoke_after_attempt w st inputs now h
      have h2 : (RobustFallbackAgent.invoke w st inputs now).state.initAttempted = true := by
        rw [h1.2]
        exact h
      rw [show (runInvokes w st inputs now (n + 1)).2 =
          (RobustFallbackAgent.invoke w st inputs now).probes +
            (runInvokes w (RobustFallbackAgent.invoke w st inputs now).state
              (RobustFallbackAgent.invoke w st inputs now).inputs now n).2 from rfl]
      rw [h1.1, ih _ _ h2]

/-- C5 counterexample: with the credential present and the probe
succeeding, a fresh `RobustFallbackAgent` has already performed 2
connectivity probes before any invocation (one inside `get_agent`, one from
the direct `get_working_llm` call in `__init__`), and the first invocation
performs a third — refuting "performed lazily at most once". -/
theorem c5_counterexample_triple_probe :
    totalProbes worldChainFails (input_data empAlice sampleT1) sampleT2 0 = 2 ∧
    totalProbes worldChainFails (input_data empAlice sampleT1) sampleT2 1 = 3 :=
  ⟨rfl, rfl⟩

/-- C5 amended: per `RobustFallbackAgent` instance the connectivity probe
runs twice eagerly at construction and once more on the first invocation;
from then on the recorded outcome is reused — the probe total after any
positive number of invocations stays at three (times the credential
presence), so no invocation after the first re-probes the backend. -/
theorem c5_amended_probe_memoization (w : LLMWorld) (inputs : Inputs)
    (now : PyDateTime) (n : Nat) :
    (RobustFallbackAgent.init w).2 = 2 * probeCost w ∧
    totalProbes w inputs now (n + 1) = 3 * probeCost w := by
  have hgw : (get_working_llm w).2 = probeCost w := by
    unfold get_working_llm probeCost
    by_cases hk : w.apiKeyPresent <;> simp [hk]
  have hinit : (RobustFallbackAgent.init w).2 = 2 * probeCost w := by
    show (get_agent w).2 + (get_working_llm w).2 = _
    unfold get_agent
    rw [hgw]
    omega
  refine ⟨hinit, ?_⟩
  have hst : (RobustFallbackAgent.init w).1.initAttempted = false := rfl
  have hil0 : RobustFallbackAgent.init_llm w (RobustFallbackAgent.init w).1 =
      (⟨(RobustFallbackAgent.init w).1.agent, (get_working_llm w).1.isSome, true⟩,
       (get_working_llm w).2) := by
    unfold RobustFallbackAgent.init_llm
    rw [if_neg (by rw [hst]; exact Bool.false_ne_true)]
  have hout_probes :
      (RobustFallbackAgent.invoke w (RobustFallbackAgent.init w).1 inputs now).probes =
        probeCost w := by
    unfold RobustFallbackAgent.invoke
    rw [hil0]
    dsimp only
    split <;> first | exact hgw | (split <;> exact hgw)
  have hout_state :
      (RobustFallbackAgent.invoke w (RobustFallbackAgent.init w).1 inputs
        now).state.initAttempted = true := by
    unfold RobustFallbackAgent.invoke
    rw [hil0]
    dsimp only
    split <;> first | rfl | (split <;> rfl)
  show (RobustFallbackAgent.init w).2 +
      (runInvokes w (RobustFallbackAgent.init w).1 inputs now (n + 1)).2 = 3 * probeCost w
  rw [show (runInvokes w (RobustFallbackAgent.init w).1 inputs now (n + 1)).2 =
      (RobustFallbackAgent.invoke w (RobustFallbackAgent.init w).1 inputs now).probes +
        (runInvokes w
          (RobustFallbackAgent.invoke w (RobustFallbackAgent.init w).1 inputs now).state
          (RobustFallbackAgent.invoke w (RobustFallbackAgent.init w).1 inputs now).inputs
          now n).2 from rfl]
  rw [hout_probes, runInvokes_after_attempt w now n _ _ hout_state, hinit]
  omega

/-- Auxiliary: replacing every pair keyed `k` does not change lookups of a
different key `k'`. -/
theorem lookup_map_replace_ne (k k' : String) (v : PyVal) (h : k' ≠ k) (d : Inputs) :
    List.lookup k' (d.map (fun p => if p.1 == k then (k, v) else p)) =
      List.lookup k' d := by
  induction d with
  | nil => rfl
  | cons p rest ih =>
      by_cases hp : p.1 = k
      · have hif : (if p.1 == k then (k, v) else p) = (k, v) :=
          if_pos (beq_iff_eq.mpr hp)
        have h1 : (k' == k) = false := beq_eq_false_iff_ne.mpr h
        have h2 : (k' == p.1) = false :=
          beq_eq_false_iff_ne.mpr (fun he => h (he.trans hp))
        simp only [List.map_cons, hif]
        simp only [List.lookup, h1, h2]
        simpa using ih
      · have hp' : (p.1 == k) = false := beq_eq_false_iff_ne.mpr hp
        have hif : (if p.1 == k then (k, v) else p) = p := if_neg (by simp [hp'])
        simp only [List.map_cons, hif]
        by_cases hb : k' = p.1
        · simp [List.lookup, beq_iff_eq.mpr hb]
        · simp only [List.lookup, beq_eq_false_iff_ne.mpr hb]
          simpa using ih

/-- Auxiliary: when some pair of `d` is keyed `k`, the in-place overwrite
makes lookup of `k` return the new value. -/
theorem lookup_map_replace_self (k : String) (v : PyVal) :
    ∀ d : Inputs, d.any (fun p => p.1 == k) = true →
      List.lookup k (d.map (fun p => if p.1 == k then (k, v) else p)) = some v := by
  intro d
  induction d with
  | nil => intro hany; simp at hany
  | cons p rest ih =>
      intro hany
      by_cases hp : p.1 = k
      · have hif : (if p.1 == k then (k, v) else p) = (k, v) :=
          if_pos (beq_iff_eq.mpr hp)
        simp only [List.map_cons, hif]
        simp [List.lookup]
      · have hp' : (p.1 == k) = false := beq_eq_false_iff_ne.mpr hp
        have hif : (if p.1 == k then (k, v) else p) = p := if_neg (by simp [hp'])
        have hany' : rest.any (fun p => p.1 == k) = true := by
          simpa [List.any_cons, hp'] using hany
        have hk : (k == p.1) = false :=
          beq_eq_false_iff_ne.mpr (fun he => hp he.symm)
        simp only [List.map_cons, hif]
        simp only [List.lookup, hk]
        simpa using ih hany' 

/-- Auxiliary: appending the fresh pair `(k, v)` makes lookup of `k` return
`v` when no pair of `d` is keyed `k`. -/
theorem lookup_append_fresh_self (k : String) (v : PyVal) :
    ∀ d : Inputs, (∀ p ∈ d, (p.1 == k) = false) →
      List.lookup k (d ++ [(k, v)]) = some v := by
  intro d
  induction d with
  | nil => intro _; simp [List.lookup]
  | cons p rest ih =>
      intro hall
      have hp := hall p (List.mem_cons_self _ _)
      have hk : (k == p.1) = false :=
        beq_eq_false_iff_ne.mpr (fun he => by
          rw [← he] at hp
          simp at hp)
      simp only [List.cons_append]
      simp [List.lookup, hk]
      simpa [List.lookup, hk] using
        ih (fun q hq => hall q (List.mem_cons_of_mem _ hq))

/-- Auxiliary: appending the pair `(k, v)` does not change lookups of a
different key `k'`. -/
theorem lookup_append_fresh_ne (k k' : String) (v : PyVal) (h : k' ≠ k) :
    ∀ d : Inputs, List.lookup k' (d ++ [(k, v)]) = List.lookup k' d := by
  intro d
  induction d with
  | nil => simp [List.lookup, beq_eq_false_iff_ne.mpr h]
  | cons p rest ih =>
      by_cases hb : k' = p.1
      · simp [List.lookup, beq_iff_eq.mpr hb]
      · simp [List.lookup, beq_eq_false_iff_ne.mpr hb, ih]

/-- Auxiliary: after the dict assignment `d[k] = v`, looking up `k` yields
`v`. -/
theorem lookup_setKey_self (d : Inputs) (k : String) (v : PyVal) :
    List.lookup k (setKey d k v) = some v := by
  unfold setKey
  by_cases hany : d.any (fun p => p.1 == k) = true
  · rw [if_pos hany]
    exact lookup_map_replace_self k v d hany
  · rw [if_neg hany]
    refine lookup_append_fresh_self k v d (fun p hp => ?_)
    by_contra hc
    exact hany (List.any_eq_true.mpr ⟨p, hp, by simpa using hc⟩)

/-- Auxiliary: the dict assignment `d[k] = v` does not change lookups of any
other key. -/
theorem lookup_setKey_ne (d : Inputs) (k k' : String) (v : PyVal) (h : k' ≠ k) :
    List.lookup k' (setKey d k v) = List.lookup k' d := by
  unfold setKey
  by_cases hany : d.any (fun p => p.1 == k) = true
  · rw [if_pos hany]
    exact lookup_map_replace_ne k k' v h d
  · rw [if_neg hany]
    exact lookup_append_fresh_ne k k' v h d

/-- Auxiliary: every branch of `invoke` returns the same mutated dict. -/
theorem invoke_inputs_eq (w : LLMWorld) (st : RFAState) (d : Inputs)
    (now : PyDateTime) :
    (RobustFallbackAgent.invoke w st d now).inputs =
      setKey d "generated_date" (.s (fmtDateLong now)) := by
  unfold RobustFallbackAgent.invoke
  dsimp only
  split <;> first | rfl | (split <;> rfl)

/-- Auxiliary: every strftime month name has at most 9 characters. -/
theorem monthName_length_le (m : Nat) : (monthName m).length ≤ 9 := by
  unfold monthName
  rcases Nat.lt_or_ge (m - 1) 12 with h | h
  · set j := m - 1 with hj
    clear_value j
    interval_cases j <;> decide
  · rw [List.getD_eq_default _ _ (by rw [show monthNames.length = 12 from rfl]; omega)]
    decide

/-- Auxiliary: the long timestamp format (`"%B %d, %Y at %I:%M %p"`) is 12
characters longer than the short one for the same month, so no long-format
timestamp ever equals a short-format one (21 ≤ long, short ≤ 18). -/
theorem fmtDateLong_ne_fmtDateShort (t t' : PyDateTime) :
    fmtDateLong t ≠ fmtDateShort t' := by
  intro hc
  have hlen := congrArg String.length hc
  have hpad2 : ∀ n, (pad2 n).length = 2 := fun n => rfl
  have hpad4 : ∀ n, (pad4 n).length = 4 := fun n => rfl
  have hampm : (if t.isPM then "PM" else "AM").length = 2 := by
    cases t.isPM <;> rfl
  simp only [fmtDateLong, fmtDateShort, String.length_append, hpad2, hpad4,
    hampm] at hlen
  have h1 := monthName_length_le t.month
  have h2 := monthName_length_le t'.month
  have hsp : (" " : String).length = 1 := rfl
  have hco : (", " : String).length = 2 := rfl
  have hat : (" at " : String).length = 4 := rfl
  have hcl : (":" : String).length = 1 := rfl
  rw [hsp, hco, hat, hcl] at hlen
  omega

/-- C10: `RobustFallbackAgent.invoke` mutates the caller's `inputs` dict —
it overwrites `generated_date` with the long-format
("Month DD, YYYY at HH:MM AM/PM") timestamp of the invocation clock and
changes no other key — and because `generate_offer_for` reads
`input_data["generated_date"]` from that same dict after `invoke`, the
`generated_on` field of every successful result carries the overwritten
time-of-day value, never the "Month DD, YYYY" value built before the
call. -/
theorem c10_invoke_mutates_generated_date (w : LLMWorld) (st : RFAState)
    (d : Inputs) (t2 : PyDateTime) :
    List.lookup "generated_date" (RobustFallbackAgent.invoke w st d t2).inputs =
      some (.s (fmtDateLong t2)) ∧
    (∀ k, k ≠ "generated_date" →
      List.lookup k (RobustFallbackAgent.invoke w st d t2).inputs =
        List.lookup k d) ∧
    (∀ (rows : List EmployeeRow) (t1 : PyDateTime) (name : String)
        (res : OfferResult),
      generate_offer_for rows w t1 t2 name = .ok res →
        res.generated_on = fmtDateLong t2 ∧ res.generated_on ≠ fmtDateShort t1) := by
  refine ⟨?_, ?_, ?_⟩
  · rw [invoke_inputs_eq]
    exact lookup_setKey_self d "generated_date" (.s (fmtDateLong t2))
  · intro k hk
    rw [invoke_inputs_eq]
    exact lookup_setKey_ne d "generated_date" k (.s (fmtDateLong t2)) hk
  · intro rows t1 name res hres
    unfold generate_offer_for at hres
    cases hemp : get_employee_record rows name with
    | error e => rw [hemp] at hres; exact absurd hres (by simp)
    | ok employee =>
        rw [hemp] at hres
        dsimp only at hres
        have hl : List.lookup "generated_date"
            (RobustFallbackAgent.invoke w (RobustFallbackAgent.init w).1
              (input_data employee t1) t2).inputs =
            some (.s (fmtDateLong t2)) := by
          rw [invoke_inputs_eq]
          exact lookup_setKey_self _ _ _
        cases hout : (RobustFallbackAgent.invoke w (RobustFallbackAgent.init w).1
            (input_data employee t1) t2).result with
        | error e => rw [hout] at hres; exact absurd hres (by simp)
        | ok letter =>
            rw [hout, hl] at hres
            have hres' : res.generated_on = pyStr (.s (fmtDateLong t2)) := by
              cases hres
              rfl
            refine ⟨hres', ?_⟩
            rw [hres']
            exact fmtDateLong_ne_fmtDateShort t2 t1

/-- Witness for `c10_invoke_mutates_generated_date`: concrete frame check —
the key "name" is unchanged by the mutation while "generated_date" now
holds the long-format timestamp. -/
theorem c10_invoke_mutates_generated_date_witness :
    List.lookup "name"
        (RobustFallbackAgent.invoke worldTemplateOnly
          (RobustFallbackAgent.init worldTemplateOnly).1
          (input_data empAlice sampleT1) sampleT2).inputs =
      List.lookup "name" (input_data empAlice sampleT1) ∧
    List.lookup "generated_date"
        (RobustFallbackAgent.invoke worldTemplateOnly
          (RobustFallbackAgent.init worldTemplateOnly).1
          (input_data empAlice sampleT1) sampleT2).inputs =
      some (.s (fmtDateLong sampleT2)) :=
  ⟨(c10_invoke_mutates_generated_date worldTemplateOnly
      (RobustFallbackAgent.init worldTemplateOnly).1
      (input_data empAlice sampleT1) sampleT2).2.1 "name" (by decide),
   (c10_invoke_mutates_generated_date worldTemplateOnly
      (RobustFallbackAgent.init worldTemplateOnly).1
      (input_data empAlice sampleT1) sampleT2).1⟩
